import Mathlib

/-!
Shallow embedding of the WhatsApp webhook relay (Flask application).

Conventions used throughout:
* Timestamps are modelled as `Int` seconds.  The Python code stores ISO-8601
  strings (`iso` / `iso_now`) and parses them back with `fromisoformat`; that
  round trip is value- and order-faithful, so the embedding works directly
  with the underlying instants.
* Python dictionaries are modelled as association lists with in-place update
  (`dictSet`), matching dict semantics: an overwrite keeps the key at its
  original position, a fresh key is appended (insertion order).
* Python truthiness on optional strings (`if msg_id:` …) is modelled by
  `truthyS` / `pyOr`.
-/

namespace WaRelay

/-- Values stored in a session `context` dict (strings and booleans are the
only value shapes the code ever stores there). -/
inductive PyVal where
  | str (v : String)
  | bool (v : Bool)
deriving DecidableEq

/-- Python dict assignment `d[k] = v`: overwrite the first (unique) binding in
place, otherwise append. -/
def dictSet {α β : Type} [BEq α] : List (α × β) → α → β → List (α × β)
  | [], k, v => [(k, v)]
  | (k', v') :: rest, k, v =>
      if k' == k then (k', v) :: rest else (k', v') :: dictSet rest k v

/-- Python dict `d.pop(k, None)`: remove the first (unique) binding for `k`. -/
def dictPop {α β : Type} [BEq α] : List (α × β) → α → List (α × β)
  | [], _ => []
  | (k', v') :: rest, k =>
      if k' == k then rest else (k', v') :: dictPop rest k

/-- Truthiness of an optional Python string (`None` and `""` are falsy). -/
def truthyS : Option String → Bool
  | some s => s != ""
  | none => false

/-- Python `a or b` on an optional string with a string fallback
(`str(x or "dflt")`). -/
def pyOr (o : Option String) (d : String) : String :=
  match o with
  | some s => if s != "" then s else d
  | none => d

/-- `DEFAULT_TTLS` from app/sessions.py: seconds of validity per state. -/
def DEFAULT_TTLS : List (String × Int) :=
  [("idle", 60 * 60),
   ("awaiting_menu_selection", 5 * 60),
   ("awaiting_name", 20 * 60),
   ("awaiting_name_confirm", 10 * 60),
   ("awaiting_email", 20 * 60),
   ("booking_pending", 24 * 60 * 60),
   ("escalated", 12 * 60 * 60),
   ("closed", 5 * 60)]

/-- One conversation session (the dict built by `SessionManager.touch`). -/
structure Session where
  session_id : String
  tenant : String
  phone : String
  state : String
  context : List (String × PyVal)
  last_activity : Int
  expires_at : Int
  attempts : Int
  locked_by_operator : Option String
deriving DecidableEq

/-- The in-memory `SessionManager`: sessions keyed by `(tenant, phone)` plus
the TTL table (defaults possibly overridden at construction). -/
@[ext]
structure SessionManager where
  sessions : List ((String × String) × Session)
  ttls : List (String × Int)
deriving DecidableEq

/-- `SessionManager()` as constructed by the application (no TTL overrides). -/
def SessionManager.init : SessionManager :=
  { sessions := [], ttls := DEFAULT_TTLS }

/-- `_exp_for_state`: `now + ttls.get(state, ttls["idle"])`.  The `"idle"` key
is always present in the constructed table; `getD 0` covers the impossible
missing-key branch. -/
def SessionManager.expForState (sm : SessionManager) (state : String) (now : Int) : Int :=
  now + ((sm.ttls.lookup state).getD ((sm.ttls.lookup "idle").getD 0))

/-- `SessionManager.get`: pure lookup. -/
def SessionManager.get (sm : SessionManager) (tenant phone : String) : Option Session :=
  sm.sessions.lookup (tenant, phone)

/-- `SessionManager.touch`: return the existing session refreshing
`last_activity`, or create a fresh one in `default_state`.  `fresh_id` stands
for the `uuid.uuid4()` drawn at creation. -/
def SessionManager.touch (sm : SessionManager) (tenant phone : String)
    (now : Int) (fresh_id : String) (default_state : String) :
    Session × SessionManager :=
  match sm.sessions.lookup (tenant, phone) with
  | none =>
      let s : Session :=
        { session_id := fresh_id
          tenant := tenant
          phone := phone
          state := default_state
          context := []
          last_activity := now
          expires_at := sm.expForState default_state now
          attempts := 0
          locked_by_operator := none }
      (s, { sm with sessions := sm.sessions ++ [((tenant, phone), s)] })
  | some s =>
      let s' := { s with last_activity := now }
      (s', { sm with sessions := dictSet sm.sessions (tenant, phone) s' })

/-- `SessionManager.set_state`: no-op when the session is absent, otherwise
set `state`, recompute `expires_at`, refresh `last_activity`. -/
def SessionManager.set_state (sm : SessionManager) (tenant phone state : String)
    (now : Int) : SessionManager :=
  match sm.sessions.lookup (tenant, phone) with
  | none => sm
  | some s =>
      let s' := { s with state := state
                         expires_at := sm.expForState state now
                         last_activity := now }
      { sm with sessions := dictSet sm.sessions (tenant, phone) s' }

/-- `SessionManager.set_context`: no-op when absent, otherwise merge the
updates into `context` (last write wins per key) and refresh `last_activity`. -/
def SessionManager.set_context (sm : SessionManager) (tenant phone : String)
    (updates : List (String × PyVal)) (now : Int) : SessionManager :=
  match sm.sessions.lookup (tenant, phone) with
  | none => sm
  | some s =>
      let ctx := updates.foldl (fun c kv => dictSet c kv.1 kv.2) s.context
      let s' := { s with context := ctx, last_activity := now }
      { sm with sessions := dictSet sm.sessions (tenant, phone) s' }

/-- Expiry test used by the sweep: `expires_at <= now`. -/
def sessionExpired (s : Session) (now : Int) : Bool :=
  s.expires_at ≤ now

/-- `SessionManager.cleanup_expired`: collect the keys of every expired
session, pop each of them, return the victim count and the new manager. -/
def SessionManager.cleanup_expired (sm : SessionManager) (now : Int) :
    Int × SessionManager :=
  let victims := (sm.sessions.filter (fun kv => sessionExpired kv.2 now)).map (·.1)
  (victims.length,
   { sm with sessions := victims.foldl (fun m k => dictPop m k) sm.sessions })

/-- `SessionManager.snapshot`: shallow copy of the session dict. -/
def SessionManager.snapshot (sm : SessionManager) :
    List ((String × String) × Session) :=
  sm.sessions

theorem lookup_dictSet_self {α β : Type} [BEq α] [LawfulBEq α]
    (l : List (α × β)) (k : α) (v : β) :
    (dictSet l k v).lookup k = some v := by
  induction l with
  | nil => simp [dictSet, List.lookup]
  | cons hd tl ih =>
      rcases hd with ⟨k', v'⟩
      by_cases h : k' = k
      · subst h
        simp [dictSet, List.lookup]
      · have hb : (k == k') = false := beq_eq_false_iff_ne.mpr (Ne.symm h)
        simp [dictSet, List.lookup, beq_iff_eq, h, hb, ih]

theorem lookup_dictSet_ne {α β : Type} [BEq α] [LawfulBEq α]
    (l : List (α × β)) (k k2 : α) (v : β) (h : k2 ≠ k) :
    (dictSet l k v).lookup k2 = l.lookup k2 := by
  induction l with
  | nil =>
      have hb : (k2 == k) = false := beq_eq_false_iff_ne.mpr h
      simp [dictSet, List.lookup, hb]
  | cons hd tl ih =>
      rcases hd with ⟨k', v'⟩
      by_cases hk : k' = k
      · subst hk
        have hb : (k2 == k') = false := beq_eq_false_iff_ne.mpr h
        simp [dictSet, List.lookup, hb]
      · simp [dictSet, List.lookup, beq_iff_eq, hk, ih]

theorem dictPop_eq_filter {α β : Type} [BEq α] [LawfulBEq α]
    (l : List (α × β)) (k : α) (hnd : (l.map Prod.fst).Nodup) :
    dictPop l k = l.filter (fun kv => kv.1 != k) := by
  induction l with
  | nil => simp [dictPop]
  | cons hd tl ih =>
      rcases hd with ⟨k', v'⟩
      simp only [List.map_cons, List.nodup_cons] at hnd
      by_cases hk : k' = k
      · subst hk
        simp only [dictPop, beq_self_eq_true, if_true, List.filter_cons,
          bne_self_eq_false, Bool.false_eq_true, if_false]
        rw [eq_comm, List.filter_eq_self]
        intro kv hmem
        simp only [bne_iff_ne, ne_eq]
        intro hfst
        exact hnd.1 (hfst ▸ List.mem_map_of_mem Prod.fst hmem)
      · simp [dictPop, List.filter_cons, beq_iff_eq, hk, ih hnd.2, bne_iff_ne]

theorem foldl_dictPop_eq_filter {α β : Type} [BEq α] [LawfulBEq α]
    (ks : List α) (l : List (α × β)) (hnd : (l.map Prod.fst).Nodup) :
    ks.foldl (fun m k => dictPop m k) l = l.filter (fun kv => !(ks.contains kv.1)) := by
  induction ks generalizing l with
  | nil => simp
  | cons k ks ih =>
      have hsub : ((l.filter (fun kv => kv.1 != k)).map Prod.fst).Sublist (l.map Prod.fst) :=
        (List.filter_sublist l).map Prod.fst
      rw [List.foldl_cons, dictPop_eq_filter l k hnd, ih _ (hnd.sublist hsub),
        List.filter_filter]
      apply List.filter_congr
      intro kv _
      simp [List.contains_cons, Bool.not_or, bne, Bool.and_comm]

theorem ttl_lookup_pos (state : String) :
    0 < (DEFAULT_TTLS.lookup state).getD 3600 := by
  unfold DEFAULT_TTLS
  simp only [List.lookup]
  repeat' split
  all_goals norm_num

theorem expForState_default (sm : SessionManager) (state : String) (now : Int)
    (hT : sm.ttls = DEFAULT_TTLS) :
    sm.expForState state now = now + ((DEFAULT_TTLS.lookup state).getD 3600) := by
  rw [SessionManager.expForState, hT,
    show DEFAULT_TTLS.lookup "idle" = some 3600 from by decide]
  rfl

/-- Claim C5: for every session and state `s`, `set_state` sets `expires_at`
strictly ahead of the call time by exactly the TTL the table defines for `s`
(idle 3600, awaiting_menu_selection 300, awaiting_name 1200,
awaiting_name_confirm 600, awaiting_email 1200, booking_pending 86400,
escalated 43200, closed 300), falling back to the idle TTL 3600 for unknown
states, refreshing `last_activity`; it is a no-op when no session exists. -/
theorem C5_set_state_ttl (sm : SessionManager) (tenant phone state : String)
    (now : Int) (hT : sm.ttls = DEFAULT_TTLS) :
    (∀ s, sm.get tenant phone = some s →
      (sm.set_state tenant phone state now).get tenant phone =
        some { s with state := state,
                      expires_at := now + ((DEFAULT_TTLS.lookup state).getD 3600),
                      last_activity := now }
      ∧ now < now + ((DEFAULT_TTLS.lookup state).getD 3600))
    ∧ (DEFAULT_TTLS.lookup state = none →
        now + ((DEFAULT_TTLS.lookup state).getD 3600) = now + 3600)
    ∧ (sm.get tenant phone = none → sm.set_state tenant phone state now = sm)
    ∧ DEFAULT_TTLS.lookup "idle" = some 3600
    ∧ DEFAULT_TTLS.lookup "awaiting_menu_selection" = some 300
    ∧ DEFAULT_TTLS.lookup "awaiting_name" = some 1200
    ∧ DEFAULT_TTLS.lookup "awaiting_name_confirm" = some 600
    ∧ DEFAULT_TTLS.lookup "awaiting_email" = some 1200
    ∧ DEFAULT_TTLS.lookup "booking_pending" = some 86400
    ∧ DEFAULT_TTLS.lookup "escalated" = some 43200
    ∧ DEFAULT_TTLS.lookup "closed" = some 300 := by
  refine ⟨?_, ?_, ?_, by decide, by decide, by decide, by decide, by decide,
    by decide, by decide, by decide⟩
  · intro s hs
    simp only [SessionManager.get] at hs
    simp only [SessionManager.set_state, hs, SessionManager.get,
      expForState_default sm state now hT]
    constructor
    · exact lookup_dictSet_self sm.sessions (tenant, phone) _
    · have := ttl_lookup_pos state
      omega
  · intro hnone
    rw [hnone]
    norm_num
  · intro hs
    simp only [SessionManager.get] at hs
    simp only [SessionManager.set_state, hs]

def sessW : Session :=
  { session_id := "sid"
    tenant := "t"
    phone := "p"
    state := "idle"
    context := []
    last_activity := 0
    expires_at := 3600
    attempts := 0
    locked_by_operator := none }

def smW : SessionManager :=
  { sessions := [(("t", "p"), sessW)], ttls := DEFAULT_TTLS }

/-- Witness for C5 at a concrete manager, session and state. -/
theorem C5_set_state_ttl_witness :
    (smW.set_state "t" "p" "closed" 50).get "t" "p" =
      some { sessW with state := "closed",
                        expires_at := 50 + ((DEFAULT_TTLS.lookup "closed").getD 3600),
                        last_activity := 50 }
    ∧ (50 : Int) < 50 + ((DEFAULT_TTLS.lookup "closed").getD 3600) :=
  (C5_set_state_ttl smW "t" "p" "closed" 50 rfl).1 sessW rfl

/-- Claim C10: for an existing session, `touch` refreshes only
`last_activity`; every other field (state, context, expires_at, session_id,
tenant, phone, attempts) is unchanged, expiry is not postponed, other
sessions and the TTL table are untouched. -/
theorem C10_touch_only_last_activity (sm : SessionManager)
    (tenant phone fresh_id : String) (now : Int) (s : Session)
    (h : sm.get tenant phone = some s) :
    (sm.touch tenant phone now fresh_id "idle").1 = { s with last_activity := now }
    ∧ (sm.touch tenant phone now fresh_id "idle").1.state = s.state
    ∧ (sm.touch tenant phone now fresh_id "idle").1.context = s.context
    ∧ (sm.touch tenant phone now fresh_id "idle").1.expires_at = s.expires_at
    ∧ (sm.touch tenant phone now fresh_id "idle").1.session_id = s.session_id
    ∧ (sm.touch tenant phone now fresh_id "idle").1.tenant = s.tenant
    ∧ (sm.touch tenant phone now fresh_id "idle").1.phone = s.phone
    ∧ (sm.touch tenant phone now fresh_id "idle").1.attempts = s.attempts
    ∧ (sm.touch tenant phone now fresh_id "idle").1.last_activity = now
    ∧ (sm.touch tenant phone now fresh_id "idle").2.get tenant phone
        = some { s with last_activity := now }
    ∧ (∀ k2 : String × String, k2 ≠ (tenant, phone) →
        (sm.touch tenant phone now fresh_id "idle").2.sessions.lookup k2
          = sm.sessions.lookup k2)
    ∧ (sm.touch tenant phone now fresh_id "idle").2.ttls = sm.ttls := by
  simp only [SessionManager.get] at h
  simp [SessionManager.touch, h, SessionManager.get, lookup_dictSet_self]
  intro a b hk2
  exact lookup_dictSet_ne sm.sessions (tenant, phone) (a, b) _ (by simpa [Prod.ext_iff] using hk2)

/-- Witness for C10 at a concrete manager. -/
theorem C10_touch_only_last_activity_witness :
    (smW.touch "t" "p" 77 "fresh" "idle").1 = { sessW with last_activity := 77 }
    ∧ (smW.touch "t" "p" 77 "fresh" "idle").1.expires_at = sessW.expires_at
    ∧ (smW.touch "t" "p" 77 "fresh" "idle").2.get "t" "p"
        = some { sessW with last_activity := 77 } := by
  have h := C10_touch_only_last_activity smW "t" "p" "fresh" 77 sessW rfl
  exact ⟨h.1, h.2.2.2.1, h.2.2.2.2.2.2.2.2.2.1⟩

/-- Claim C6: `cleanup_expired` removes exactly the sessions with
`expires_at <= now`, returns the removed count, and when nothing is expired
it returns 0 and leaves the manager unchanged.  The key-uniqueness hypothesis
is the Python dict invariant. -/
theorem C6_cleanup_expired (sm : SessionManager) (now : Int)
    (hnd : (sm.sessions.map Prod.fst).Nodup) :
    (sm.cleanup_expired now).2.sessions
      = sm.sessions.filter (fun kv => !(sessionExpired kv.2 now))
    ∧ (sm.cleanup_expired now).1
      = ((sm.sessions.filter (fun kv => sessionExpired kv.2 now)).length : Int)
    ∧ ((∀ kv ∈ sm.sessions, sessionExpired kv.2 now = false) →
        (sm.cleanup_expired now).1 = 0 ∧ (sm.cleanup_expired now).2 = sm) := by
  have hmain : (sm.cleanup_expired now).2.sessions
      = sm.sessions.filter (fun kv => !(sessionExpired kv.2 now)) := by
    simp only [SessionManager.cleanup_expired]
    rw [foldl_dictPop_eq_filter _ sm.sessions hnd]
    apply List.filter_congr
    intro kv hmem
    have hiff : kv.1 ∈ (sm.sessions.filter (fun kv => sessionExpired kv.2 now)).map (·.1)
        ↔ sessionExpired kv.2 now = true := by
      constructor
      · intro hmm
        rcases List.mem_map.mp hmm with ⟨kv2, hkv2, hfst⟩
        have hkv2mem := (List.mem_filter.mp hkv2).1
        have hkv2exp := (List.mem_filter.mp hkv2).2
        have heq : kv2 = kv := List.inj_on_of_nodup_map hnd hkv2mem hmem hfst
        rw [heq] at hkv2exp
        exact hkv2exp
      · intro hexp
        exact List.mem_map.mpr ⟨kv, List.mem_filter.mpr ⟨hmem, hexp⟩, rfl⟩
    have hc : (((sm.sessions.filter (fun kv => sessionExpired kv.2 now)).map (·.1)).contains kv.1)
        = sessionExpired kv.2 now := by
      apply Bool.eq_iff_iff.mpr
      constructor
      · intro hcont
        exact hiff.mp (List.elem_iff.mp hcont)
      · intro hexp
        exact List.elem_iff.mpr (hiff.mpr hexp)
    rw [hc]
  have hcount : (sm.cleanup_expired now).1
      = ((sm.sessions.filter (fun kv => sessionExpired kv.2 now)).length : Int) := by
    simp [SessionManager.cleanup_expired]
  refine ⟨hmain, hcount, ?_⟩
  intro hnone
  have hfe : sm.sessions.filter (fun kv => sessionExpired kv.2 now) = [] := by
    apply List.filter_eq_nil_iff.mpr
    intro kv hmem
    simp [hnone kv hmem]
  constructor
  · rw [hcount, hfe]
    rfl
  · have h2 : (sm.cleanup_expired now).2.sessions = sm.sessions := by
      rw [hmain]
      apply List.filter_eq_self.mpr
      intro kv hmem
      simp [hnone kv hmem]
    have h3 : (sm.cleanup_expired now).2.ttls = sm.ttls := rfl
    exact SessionManager.ext h2 h3

/-- Witness for C6 at a concrete manager with one expired and one live
session. -/
theorem C6_cleanup_expired_witness :
    ((SessionManager.mk [(("t", "p"), sessW), (("t", "q"), { sessW with phone := "q", expires_at := 10 })] DEFAULT_TTLS).cleanup_expired 100).2.sessions
      = [(("t", "p"), sessW)]
    ∧ ((SessionManager.mk [(("t", "p"), sessW), (("t", "q"), { sessW with phone := "q", expires_at := 10 })] DEFAULT_TTLS).cleanup_expired 100).1 = 1 := by
  have h := C6_cleanup_expired
    (SessionManager.mk [(("t", "p"), sessW), (("t", "q"), { sessW with phone := "q", expires_at := 10 })] DEFAULT_TTLS)
    100 (by decide)
  refine ⟨?_, ?_⟩
  · rw [h.1]
    decide
  · rw [h.2.1]
    decide

/-- Template payload of a template action (`{"name": ..., "language": {"code": ...}}`). -/
structure TemplateObj where
  name : String
  language_code : String
deriving DecidableEq

/-- Provider response of a send: the list of returned message-id fields
(`messages[i]["id"]`, possibly absent) and the `dry_run` marker. -/
structure SendRes where
  messages : List (Option String)
  dry_run : Bool
deriving DecidableEq

/-- A row of the `messages` table (app/models/storage.py).  `raw_payload`
keeps the provider response object itself (its JSON text in SQLite). -/
structure Msg where
  id : String
  tenant_id : String
  phone : String
  direction : String
  text : Option String
  attachments_meta : Option TemplateObj
  external_msg_id : Option String
  status : Option String
  raw_payload : Option SendRes
  created_at : Int
deriving DecidableEq

/-- The SQLite store: `messages` plus the `processed_ids` dedupe table
(`external_msg_id -> seen_at`). -/
structure DB where
  messages : List Msg
  processed_ids : List (String × Int)
deriving DecidableEq

/-- `insert_message`: append one row. -/
def insert_message (db : DB) (m : Msg) : DB :=
  { db with messages := db.messages ++ [m] }

/-- `update_message_status_by_external_id`: set `status` on every row whose
`external_msg_id` matches; return the affected row count. -/
def update_message_status_by_external_id (db : DB) (external_msg_id status : String) :
    Int × DB :=
  ((db.messages.filter (fun m => m.external_msg_id == some external_msg_id)).length,
   { db with messages := db.messages.map (fun m =>
       if m.external_msg_id == some external_msg_id
       then { m with status := some status } else m) })

/-- `has_processed_id`: membership in the dedupe table. -/
def has_processed_id (db : DB) (external_msg_id : String) : Bool :=
  (db.processed_ids.lookup external_msg_id).isSome

/-- `add_processed_id`: insert into the dedupe table; a duplicate primary key
raises `IntegrityError`, reported as `False` ("already existed"). -/
def add_processed_id (db : DB) (external_msg_id : String) (seen_at : Int) : Bool × DB :=
  if has_processed_id db external_msg_id then (false, db)
  else (true, { db with processed_ids := db.processed_ids ++ [(external_msg_id, seen_at)] })

/-- `channel_key` from app/realtime.py: `f"{pnid}|{phone}"`. -/
def channel_key (pnid phone : String) : String :=
  pnid ++ "|" ++ phone

/-- A realtime (SSE) event payload, the union of the dict shapes published by
the webhook blueprint (`type` is `"message"` or `"status"`). -/
structure RtEvent where
  type : String
  direction : Option String
  msg_type : Option String
  text : Option String
  template : Option TemplateObj
  external_msg_id : Option String
  status : Option String
  timestamp : Option String
  created_at : Option Int
deriving DecidableEq

/-- One entry of a webhook `statuses` list (the fields the handler reads). -/
structure StatusEntry where
  status : Option String
  id : Option String
  recipient_id : Option String
  timestamp : Option String
  errors : List String
deriving DecidableEq

/-- Database effect of one iteration of `_log_statuses_and_persist`:
duplicate ids (dedupe hit) are only logged; otherwise, when both `id` and
`status` are truthy, the row status is updated and the id recorded. -/
def statusDbStep (db : DB) (st : StatusEntry) (now : Int) : DB :=
  if truthyS st.id ∧ has_processed_id db (st.id.getD "") then
    db
  else if truthyS st.id ∧ truthyS st.status then
    (add_processed_id
      (update_message_status_by_external_id db (st.id.getD "") (st.status.getD "")).2
      (st.id.getD "") now).2
  else
    db

/-- The SSE publish at the end of every loop iteration of
`_log_statuses_and_persist` (note: outside the dedupe branch): channel from
`tenant_id or metadata pnid or "unknown"` and the recipient id, event of type
`"status"`. -/
def statusPublish (tenant_id pnid_from_value : Option String) (st : StatusEntry) :
    String × RtEvent :=
  (channel_key (pyOr tenant_id (pyOr pnid_from_value "unknown"))
               (pyOr st.recipient_id ""),
   { type := "status"
     direction := none
     msg_type := none
     text := none
     template := none
     external_msg_id := st.id
     status := st.status
     timestamp := st.timestamp
     created_at := none })

/-- `_log_statuses_and_persist`: return if `statuses` is not a list,
otherwise fold the per-entry database step, collecting the SSE publishes. -/
def log_statuses_and_persist (statuses : Option (List StatusEntry))
    (tenant_id pnid_from_value : Option String) (now : Int) (db : DB) :
    DB × List (String × RtEvent) :=
  match statuses with
  | none => (db, [])
  | some sts =>
      sts.foldl (fun acc st =>
        (statusDbStep acc.1 st now,
         acc.2 ++ [statusPublish tenant_id pnid_from_value st])) (db, [])

theorem lookup_append_single {α β : Type} [BEq α] [LawfulBEq α]
    (l : List (α × β)) (k : α) (v : β) :
    (l ++ [(k, v)]).lookup k = some ((l.lookup k).getD v) := by
  induction l with
  | nil => simp [List.lookup]
  | cons hd tl ih =>
      rcases hd with ⟨k2, v2⟩
      by_cases h : k2 = k
      · subst h
        simp [List.lookup]
      · have hb : (k == k2) = false := beq_eq_false_iff_ne.mpr (Ne.symm h)
        simp [List.lookup, hb, ih]

theorem has_processed_after_add (db : DB) (m : String) (w : Int) :
    has_processed_id (add_processed_id db m w).2 m = true := by
  by_cases hp : has_processed_id db m
  · simp [add_processed_id, hp]
  · unfold add_processed_id
    rw [if_neg hp]
    show ((db.processed_ids ++ [(m, w)]).lookup m).isSome = true
    rw [lookup_append_single]
    rfl

/-- Claim C1: status handling is idempotent for every external id: the same
status update applied twice changes row statuses at most once (the second
pass is a no-op), `has_processed_id` is true after the first application, and
`add_processed_id` on an already-present id returns `false` without raising
and without changing the store. -/
theorem C1_status_idempotent (db : DB) (st : StatusEntry) (m s : String)
    (now now2 : Int) (hid : st.id = some m) (hm : m ≠ "")
    (hs : st.status = some s) (hsne : s ≠ "") :
    has_processed_id (statusDbStep db st now) m = true
    ∧ statusDbStep (statusDbStep db st now) st now2 = statusDbStep db st now
    ∧ (add_processed_id (statusDbStep db st now) m now2).1 = false
    ∧ (add_processed_id (statusDbStep db st now) m now2).2 = statusDbStep db st now
    ∧ (has_processed_id db m = false →
        (statusDbStep db st now).messages
          = (update_message_status_by_external_id db m s).2.messages) := by
  have htr : truthyS (some m) = true := by simpa [truthyS] using hm
  have hts2 : truthyS (some s) = true := by simpa [truthyS] using hsne
  have hstep_dup : ∀ d : DB, has_processed_id d m = true → statusDbStep d st now2 = d := by
    intro d hd
    simp [statusDbStep, hid, hs, htr, hd]
  have h1 : has_processed_id (statusDbStep db st now) m = true := by
    by_cases hp : has_processed_id db m
    · simp [statusDbStep, hid, hs, htr, hp]
    · simp [statusDbStep, hid, hs, htr, hts2, hp, has_processed_after_add]
  refine ⟨h1, hstep_dup _ h1, ?_, ?_, ?_⟩
  · simp [add_processed_id, h1]
  · simp [add_processed_id, h1]
  · intro hp
    have hp' : (db.processed_ids.lookup m).isSome = false := by
      simpa [has_processed_id] using hp
    simp [statusDbStep, hid, hs, htr, hts2, hp, add_processed_id,
      has_processed_id, update_message_status_by_external_id, hp']

/-- Concrete store for the C1/C2 scenarios: one outbound row with external id
`wamid.ABC`, empty dedupe table. -/
def msgABC : Msg :=
  { id := "m1"
    tenant_id := "t"
    phone := "556199"
    direction := "outbound"
    text := some "hello"
    attachments_meta := none
    external_msg_id := some "wamid.ABC"
    status := some "sent"
    raw_payload := none
    created_at := 0 }

def dbABC : DB := { messages := [msgABC], processed_ids := [] }

/-- A `read` status webhook entry for `wamid.ABC`. -/
def stRead : StatusEntry :=
  { status := some "read"
    id := some "wamid.ABC"
    recipient_id := some "556199"
    timestamp := some "1700000000"
    errors := [] }

/-- Witness for C1 at the concrete store and status entry. -/
theorem C1_status_idempotent_witness :
    has_processed_id (statusDbStep dbABC stRead 5) "wamid.ABC" = true
    ∧ statusDbStep (statusDbStep dbABC stRead 5) stRead 6 = statusDbStep dbABC stRead 5
    ∧ (add_processed_id (statusDbStep dbABC stRead 5) "wamid.ABC" 6).1 = false := by
  have h := C1_status_idempotent dbABC stRead "wamid.ABC" "read" 5 6 rfl
    (by decide) rfl (by decide)
  exact ⟨h.1, h.2.1, h.2.2.1⟩

/-- Number of broadcaster publishes of a `"status"` event for a given
external id in a publish log. -/
def countStatusPublishes (ext : String) (pubs : List (String × RtEvent)) : Nat :=
  (pubs.filter (fun p => p.2.type == "status" && p.2.external_msg_id == some ext)).length

/-- Counterexample to claim C2: two identical `read` status webhooks for
`wamid.ABC` produce TWO `"status"` publishes, not one — the SSE publish in
`_log_statuses_and_persist` sits outside the dedupe branch, so the duplicate
webhook publishes again. -/
theorem C2_counterexample :
    countStatusPublishes "wamid.ABC"
      ((log_statuses_and_persist (some [stRead]) (some "t") none 10 dbABC).2
        ++ (log_statuses_and_persist (some [stRead]) (some "t") none 20
             (log_statuses_and_persist (some [stRead]) (some "t") none 10 dbABC).1).2)
      ≠ 1 := by decide

/-- Claim C2 amended: two identical status webhooks for `wamid.ABC` result in
exactly one effective row update (the second call leaves the store unchanged)
but one `"status"` publish per webhook — two in total; the second webhook
causes no update yet still publishes. -/
theorem C2_amended_one_update_two_publishes :
    (log_statuses_and_persist (some [stRead]) (some "t") none 10 dbABC).1.messages
      = [{ msgABC with status := some "read" }]
    ∧ (log_statuses_and_persist (some [stRead]) (some "t") none 20
        (log_statuses_and_persist (some [stRead]) (some "t") none 10 dbABC).1).1
      = (log_statuses_and_persist (some [stRead]) (some "t") none 10 dbABC).1
    ∧ (log_statuses_and_persist (some [stRead]) (some "t") none 10 dbABC).2.length = 1
    ∧ (log_statuses_and_persist (some [stRead]) (some "t") none 20
        (log_statuses_and_persist (some [stRead]) (some "t") none 10 dbABC).1).2.length = 1
    ∧ countStatusPublishes "wamid.ABC"
        ((log_statuses_and_persist (some [stRead]) (some "t") none 10 dbABC).2
          ++ (log_statuses_and_persist (some [stRead]) (some "t") none 20
               (log_statuses_and_persist (some [stRead]) (some "t") none 10 dbABC).1).2)
        = 2 := by decide

/-- An outbound action dict `{to, text?, template?, delay?}` (app/flows/router.py). -/
structure WAction where
  to_ : Option String
  text : Option String
  template : Option TemplateObj
  delay : Option Int
deriving DecidableEq

/-- `make_text_action`: `{"to": to, "text": body}`. -/
def make_text_action (to_ body : String) : WAction :=
  { to_ := some to_, text := some body, template := none, delay := none }

/-- `make_template_action`: `{"to": to, "template": template}`. -/
def make_template_action (to_ : String) (template : TemplateObj) : WAction :=
  { to_ := some to_, text := none, template := some template, delay := none }

/-- `msgs[0].get("id")` capture in the dispatcher: first returned message`s
truthy id, if any. -/
def extract_ext_id (res : SendRes) : Option String :=
  match res.messages with
  | some i :: _ => if i != "" then some i else none
  | _ => none

/-- Stand-in for the `uuid.uuid4()` drawn for the outbound row of loop index
`idx`. -/
def uuidFor (idx : Nat) : String :=
  "uuid-" ++ toString idx

/-- Ghost record of one attempted action in the dispatch loop: loop index,
seconds slept before the send, the instant the send started, and whether the
send call succeeded. -/
structure ActionRecord where
  index : Nat
  waited : Int
  send_start : Int
  sent_ok : Bool
deriving DecidableEq

/-- State threaded through `_dispatch_actions_async`'s worker loop.  `clock`
is elapsed simulated time (seconds slept); `rows` is the ghost list of insert
calls tagged with the loop index; `pubs` the broadcaster publish calls tagged
likewise; `trace` the ghost send trace. -/
structure DispatchState where
  clock : Int
  db : DB
  rows : List (Nat × Msg)
  pubs : List (Nat × String × RtEvent)
  trace : List ActionRecord
deriving DecidableEq

/-- The sleep performed before the action at `idx`: its own delay when the
action specifies one (at any index, index 0 included), otherwise the default
inter-message delay for `idx > 0`; `time.sleep` runs only when positive. -/
def effWait (default_delay : Int) (idx : Nat) (a : WAction) : Int :=
  let d : Int :=
    match a.delay with
    | some d => d
    | none => if idx > 0 then default_delay else 0
  if d > 0 then d else 0

/-- The outbound `messages` row inserted after a successful send. -/
def outboundRow (pnid : Option String) (idx : Nat) (a : WAction) (res : SendRes)
    (instant : Int) : Msg :=
  { id := uuidFor idx
    tenant_id := pyOr pnid "unknown"
    phone := a.to_.getD ""
    direction := "outbound"
    text := a.text
    attachments_meta := a.template
    external_msg_id := extract_ext_id res
    status := if res.dry_run then none else some "sent"
    raw_payload := if res.dry_run then none else some res
    created_at := instant }

/-- The SSE payload published right after the insert. -/
def outboundPayload (a : WAction) (res : SendRes) (instant : Int) : RtEvent :=
  { type := "message"
    direction := some "outbound"
    msg_type := some (if a.template.isSome then "template" else "text")
    text := if a.template.isSome then none else a.text
    template := a.template
    external_msg_id := extract_ext_id res
    status := if res.dry_run then none else some "sent"
    timestamp := none
    created_at := some instant }

/-- One iteration of the worker loop of `_dispatch_actions_async`: skip
actions without a recipient, sleep the computed delay, send; on success
insert the row and publish the SSE event, on failure only log — processing
always continues with the next action. -/
def dispatchStep (send : Nat → WAction → Except Unit SendRes) (default_delay : Int)
    (pnid : Option String) (st : DispatchState) (idxa : Nat × WAction) :
    DispatchState :=
  match idxa with
  | (idx, a) =>
    if truthyS a.to_ then
      let w := effWait default_delay idx a
      let clock1 := st.clock + w
      match send idx a with
      | .error _ =>
          { st with clock := clock1
                    trace := st.trace ++ [⟨idx, w, clock1, false⟩] }
      | .ok res =>
          { clock := clock1
            db := insert_message st.db (outboundRow pnid idx a res clock1)
            rows := st.rows ++ [(idx, outboundRow pnid idx a res clock1)]
            pubs := st.pubs ++
              [(idx, channel_key (pyOr pnid "unknown") (a.to_.getD ""),
                outboundPayload a res clock1)]
            trace := st.trace ++ [⟨idx, w, clock1, true⟩] }
    else st

/-- `_dispatch_actions_async`'s worker body: fold the step over
`enumerate(actions)`, starting with an idle clock and empty ghosts. -/
def dispatch_actions (send : Nat → WAction → Except Unit SendRes)
    (default_delay : Int) (pnid : Option String) (actions : List WAction)
    (db : DB) : DispatchState :=
  actions.enum.foldl (dispatchStep send default_delay pnid) ⟨0, db, [], [], []⟩

/-- Sequential specification of the loop effects, used to characterise the
fold: rows, publishes and trace produced from a given clock. -/
def runSpec (send : Nat → WAction → Except Unit SendRes) (default_delay : Int)
    (pnid : Option String) (clock : Int) :
    List (Nat × WAction) →
      List (Nat × Msg) × List (Nat × String × RtEvent) × List ActionRecord
  | [] => ([], [], [])
  | (idx, a) :: rest =>
      if truthyS a.to_ then
        let w := effWait default_delay idx a
        let c1 := clock + w
        match send idx a with
        | .error _ =>
            let r := runSpec send default_delay pnid c1 rest
            (r.1, r.2.1, ⟨idx, w, c1, false⟩ :: r.2.2)
        | .ok res =>
            let r := runSpec send default_delay pnid c1 rest
            ((idx, outboundRow pnid idx a res c1) :: r.1,
             (idx, channel_key (pyOr pnid "unknown") (a.to_.getD ""),
              outboundPayload a res c1) :: r.2.1,
             ⟨idx, w, c1, true⟩ :: r.2.2)
      else runSpec send default_delay pnid clock rest

theorem foldl_dispatchStep_spec (send : Nat → WAction → Except Unit SendRes)
    (dd : Int) (pnid : Option String) (l : List (Nat × WAction))
    (st : DispatchState) :
    (l.foldl (dispatchStep send dd pnid) st).rows
        = st.rows ++ (runSpec send dd pnid st.clock l).1
    ∧ (l.foldl (dispatchStep send dd pnid) st).pubs
        = st.pubs ++ (runSpec send dd pnid st.clock l).2.1
    ∧ (l.foldl (dispatchStep send dd pnid) st).trace
        = st.trace ++ (runSpec send dd pnid st.clock l).2.2
    ∧ (l.foldl (dispatchStep send dd pnid) st).db.messages
        = st.db.messages ++ ((runSpec send dd pnid st.clock l).1).map (·.2) := by
  induction l generalizing st with
  | nil => simp [runSpec]
  | cons hd rest ih =>
      rcases hd with ⟨idx, a⟩
      rw [List.foldl_cons]
      rcases ih (dispatchStep send dd pnid st (idx, a)) with ⟨hr, hp, ht, hm⟩
      by_cases hto : truthyS a.to_
      · cases hsend : send idx a with
        | error e =>
            have hstep : dispatchStep send dd pnid st (idx, a) =
                { st with clock := st.clock + effWait dd idx a,
                          trace := st.trace ++
                            [⟨idx, effWait dd idx a,
                              st.clock + effWait dd idx a, false⟩] } := by
              simp [dispatchStep, hto, hsend]
            refine ⟨?_, ?_, ?_, ?_⟩
            · rw [hr, hstep]
              simp [runSpec, hto, hsend]
            · rw [hp, hstep]
              simp [runSpec, hto, hsend]
            · rw [ht, hstep]
              simp [runSpec, hto, hsend]
            · rw [hm, hstep]
              simp [runSpec, hto, hsend]
        | ok res =>
            have hstep : dispatchStep send dd pnid st (idx, a) =
                { clock := st.clock + effWait dd idx a
                  db := insert_message st.db
                    (outboundRow pnid idx a res (st.clock + effWait dd idx a))
                  rows := st.rows ++
                    [(idx, outboundRow pnid idx a res (st.clock + effWait dd idx a))]
                  pubs := st.pubs ++
                    [(idx, channel_key (pyOr pnid "unknown") (a.to_.getD ""),
                      outboundPayload a res (st.clock + effWait dd idx a))]
                  trace := st.trace ++
                    [⟨idx, effWait dd idx a, st.clock + effWait dd idx a, true⟩] } := by
              simp [dispatchStep, hto, hsend]
            refine ⟨?_, ?_, ?_, ?_⟩
            · rw [hr, hstep]
              simp [runSpec, hto, hsend]
            · rw [hp, hstep]
              simp [runSpec, hto, hsend]
            · rw [ht, hstep]
              simp [runSpec, hto, hsend]
            · rw [hm, hstep]
              simp [runSpec, hto, hsend, insert_message]
      · have hstep : dispatchStep send dd pnid st (idx, a) = st := by
          simp [dispatchStep, hto]
        refine ⟨?_, ?_, ?_, ?_⟩
        · rw [hr, hstep]
          simp [runSpec, hto]
        · rw [hp, hstep]
          simp [runSpec, hto]
        · rw [ht, hstep]
          simp [runSpec, hto]
        · rw [hm, hstep]
          simp [runSpec, hto]

/-- The send of each traced action starts exactly `waited` seconds after the
previous send started (the first, `waited` after the given clock). -/
def startsChained (clock : Int) : List ActionRecord → Prop
  | [] => True
  | r :: rest => r.send_start = clock + r.waited ∧ startsChained r.send_start rest

theorem runSpec_trace_mem (send : Nat → WAction → Except Unit SendRes)
    (dd : Int) (pnid : Option String) :
    ∀ (l : List (Nat × WAction)) (c : Int),
      ∀ r ∈ (runSpec send dd pnid c l).2.2,
        ∃ a, (r.index, a) ∈ l ∧ truthyS a.to_ ∧ r.waited = effWait dd r.index a := by
  intro l
  induction l with
  | nil =>
      intro c r hr
      simp [runSpec] at hr
  | cons hd rest ih =>
      rcases hd with ⟨idx, a⟩
      intro c r hr
      by_cases hto : truthyS a.to_
      · cases hsend : send idx a with
        | error e =>
            simp only [runSpec, hto, if_true, hsend] at hr
            rcases List.mem_cons.mp hr with hr1 | hr2
            · subst hr1
              exact ⟨a, List.mem_cons_self _ _, hto, rfl⟩
            · rcases ih _ r hr2 with ⟨a2, hmem, hta, hw⟩
              exact ⟨a2, List.mem_cons_of_mem _ hmem, hta, hw⟩
        | ok res =>
            simp only [runSpec, hto, if_true, hsend] at hr
            rcases List.mem_cons.mp hr with hr1 | hr2
            · subst hr1
              exact ⟨a, List.mem_cons_self _ _, hto, rfl⟩
            · rcases ih _ r hr2 with ⟨a2, hmem, hta, hw⟩
              exact ⟨a2, List.mem_cons_of_mem _ hmem, hta, hw⟩
      · simp only [runSpec, hto] at hr
        rcases ih _ r (by simpa using hr) with ⟨a2, hmem, hta, hw⟩
        exact ⟨a2, List.mem_cons_of_mem _ hmem, hta, hw⟩

theorem runSpec_trace_chained (send : Nat → WAction → Except Unit SendRes)
    (dd : Int) (pnid : Option String) :
    ∀ (l : List (Nat × WAction)) (c : Int),
      startsChained c (runSpec send dd pnid c l).2.2 := by
  intro l
  induction l with
  | nil =>
      intro c
      simp [runSpec, startsChained]
  | cons hd rest ih =>
      rcases hd with ⟨idx, a⟩
      intro c
      by_cases hto : truthyS a.to_
      · cases hsend : send idx a with
        | error e =>
            simp only [runSpec, hto, if_true, hsend, startsChained]
            exact ⟨trivial, ih (c + effWait dd idx a)⟩
        | ok res =>
            simp only [runSpec, hto, if_true, hsend, startsChained]
            exact ⟨trivial, ih (c + effWait dd idx a)⟩
      · simp only [runSpec, hto]
        simpa using ih c

theorem runSpec_rows_mem (send : Nat → WAction → Except Unit SendRes)
    (dd : Int) (pnid : Option String) :
    ∀ (l : List (Nat × WAction)) (c : Int),
      ∀ rp ∈ (runSpec send dd pnid c l).1,
        ∃ a res, (rp.1, a) ∈ l ∧ truthyS a.to_ ∧ send rp.1 a = .ok res := by
  intro l
  induction l with
  | nil =>
      intro c rp hrp
      simp [runSpec] at hrp
  | cons hd rest ih =>
      rcases hd with ⟨idx, a⟩
      intro c rp hrp
      by_cases hto : truthyS a.to_
      · cases hsend : send idx a with
        | error e =>
            simp only [runSpec, hto, if_true, hsend] at hrp
            rcases ih _ rp hrp with ⟨a2, res2, hmem, hta, hok⟩
            exact ⟨a2, res2, List.mem_cons_of_mem _ hmem, hta, hok⟩
        | ok res =>
            simp only [runSpec, hto, if_true, hsend] at hrp
            rcases List.mem_cons.mp hrp with hr1 | hr2
            · subst hr1
              exact ⟨a, res, List.mem_cons_self _ _, hto, hsend⟩
            · rcases ih _ rp hr2 with ⟨a2, res2, hmem, hta, hok⟩
              exact ⟨a2, res2, List.mem_cons_of_mem _ hmem, hta, hok⟩
      · simp only [runSpec, hto] at hrp
        rcases ih _ rp (by simpa using hrp) with ⟨a2, res2, hmem, hta, hok⟩
        exact ⟨a2, res2, List.mem_cons_of_mem _ hmem, hta, hok⟩

theorem runSpec_pubs_mem (send : Nat → WAction → Except Unit SendRes)
    (dd : Int) (pnid : Option String) :
    ∀ (l : List (Nat × WAction)) (c : Int),
      ∀ p ∈ (runSpec send dd pnid c l).2.1,
        ∃ a res, (p.1, a) ∈ l ∧ truthyS a.to_ ∧ send p.1 a = .ok res := by
  intro l
  induction l with
  | nil =>
      intro c p hp
      simp [runSpec] at hp
  | cons hd rest ih =>
      rcases hd with ⟨idx, a⟩
      intro c p hp
      by_cases hto : truthyS a.to_
      · cases hsend : send idx a with
        | error e =>
            simp only [runSpec, hto, if_true, hsend] at hp
            rcases ih _ p hp with ⟨a2, res2, hmem, hta, hok⟩
            exact ⟨a2, res2, List.mem_cons_of_mem _ hmem, hta, hok⟩
        | ok res =>
            simp only [runSpec, hto, if_true, hsend] at hp
            rcases List.mem_cons.mp hp with hr1 | hr2
            · subst hr1
              exact ⟨a, res, List.mem_cons_self _ _, hto, hsend⟩
            · rcases ih _ p hr2 with ⟨a2, res2, hmem, hta, hok⟩
              exact ⟨a2, res2, List.mem_cons_of_mem _ hmem, hta, hok⟩
      · simp only [runSpec, hto] at hp
        rcases ih _ p (by simpa using hp) with ⟨a2, res2, hmem, hta, hok⟩
        exact ⟨a2, res2, List.mem_cons_of_mem _ hmem, hta, hok⟩

theorem runSpec_attempts_all (send : Nat → WAction → Except Unit SendRes)
    (dd : Int) (pnid : Option String) :
    ∀ (l : List (Nat × WAction)) (c : Int),
      ∀ idx a, (idx, a) ∈ l → truthyS a.to_ →
        ∃ r ∈ (runSpec send dd pnid c l).2.2, r.index = idx := by
  intro l
  induction l with
  | nil =>
      intro c idx a hmem
      simp at hmem
  | cons hd rest ih =>
      rcases hd with ⟨jdx, b⟩
      intro c idx a hmem hta
      rcases List.mem_cons.mp hmem with hm1 | hm2
      · injection hm1 with hj hb
        subst hj
        subst hb
        cases hsend : send idx a with
        | error e =>
            refine ⟨⟨idx, effWait dd idx a, c + effWait dd idx a, false⟩, ?_, rfl⟩
            simp only [runSpec, hta, if_true, hsend]
            exact List.mem_cons_self _ _
        | ok res =>
            refine ⟨⟨idx, effWait dd idx a, c + effWait dd idx a, true⟩, ?_, rfl⟩
            simp only [runSpec, hta, if_true, hsend]
            exact List.mem_cons_self _ _
      · by_cases hto : truthyS b.to_
        · cases hsend : send jdx b with
          | error e =>
              rcases ih (c + effWait dd jdx b) idx a hm2 hta with ⟨r, hr, hri⟩
              refine ⟨r, ?_, hri⟩
              simp only [runSpec, hto, if_true, hsend]
              exact List.mem_cons_of_mem _ hr
          | ok res =>
              rcases ih (c + effWait dd jdx b) idx a hm2 hta with ⟨r, hr, hri⟩
              refine ⟨r, ?_, hri⟩
              simp only [runSpec, hto, if_true, hsend]
              exact List.mem_cons_of_mem _ hr
        · rcases ih c idx a hm2 hta with ⟨r, hr, hri⟩
          refine ⟨r, ?_, hri⟩
          simp only [runSpec, hto]
          simpa using hr

theorem runSpec_ok_recorded (send : Nat → WAction → Except Unit SendRes)
    (dd : Int) (pnid : Option String) :
    ∀ (l : List (Nat × WAction)) (c : Int),
      ∀ idx a res, (idx, a) ∈ l → truthyS a.to_ → send idx a = .ok res →
        (∃ rp ∈ (runSpec send dd pnid c l).1, rp.1 = idx)
        ∧ (∃ p ∈ (runSpec send dd pnid c l).2.1, p.1 = idx) := by
  intro l
  induction l with
  | nil =>
      intro c idx a res hmem
      simp at hmem
  | cons hd rest ih =>
      rcases hd with ⟨jdx, b⟩
      intro c idx a res hmem hta hok
      rcases List.mem_cons.mp hmem with hm1 | hm2
      · injection hm1 with hj hb
        subst hj
        subst hb
        constructor
        · refine ⟨(idx, outboundRow pnid idx a res (c + effWait dd idx a)), ?_, rfl⟩
          simp only [runSpec, hta, if_true, hok]
          exact List.mem_cons_self _ _
        · refine ⟨(idx, channel_key (pyOr pnid "unknown") (a.to_.getD ""),
            outboundPayload a res (c + effWait dd idx a)), ?_, rfl⟩
          simp only [runSpec, hta, if_true, hok]
          exact List.mem_cons_self _ _
      · by_cases hto : truthyS b.to_
        · cases hsend : send jdx b with
          | error e =>
              rcases ih (c + effWait dd jdx b) idx a res hm2 hta hok with ⟨h1, h2⟩
              constructor
              · rcases h1 with ⟨rp, hrp, hri⟩
                refine ⟨rp, ?_, hri⟩
                simp only [runSpec, hto, if_true, hsend]
                exact hrp
              · rcases h2 with ⟨p, hp, hpi⟩
                refine ⟨p, ?_, hpi⟩
                simp only [runSpec, hto, if_true, hsend]
                exact hp
          | ok res2 =>
              rcases ih (c + effWait dd jdx b) idx a res hm2 hta hok with ⟨h1, h2⟩
              constructor
              · rcases h1 with ⟨rp, hrp, hri⟩
                refine ⟨rp, ?_, hri⟩
                simp only [runSpec, hto, if_true, hsend]
                exact List.mem_cons_of_mem _ hrp
              · rcases h2 with ⟨p, hp, hpi⟩
                refine ⟨p, ?_, hpi⟩
                simp only [runSpec, hto, if_true, hsend]
                exact List.mem_cons_of_mem _ hp
        · rcases ih c idx a res hm2 hta hok with ⟨h1, h2⟩
          constructor
          · rcases h1 with ⟨rp, hrp, hri⟩
            refine ⟨rp, ?_, hri⟩
            simp only [runSpec, hto]
            simpa using hrp
          · rcases h2 with ⟨p, hp, hpi⟩
            refine ⟨p, ?_, hpi⟩
            simp only [runSpec, hto]
            simpa using hp

def dbEmpty : DB := { messages := [], processed_ids := [] }

/-- A send gateway that always succeeds, returning a provider id per index. -/
def sendAllOk : Nat → WAction → Except Unit SendRes :=
  fun idx _ => .ok { messages := [some ("wamid-" ++ toString idx)], dry_run := false }

def actA : WAction := make_text_action "A" "1"

def actB5 : WAction := { make_text_action "B" "2" with delay := some 5 }

def actDelay7 : WAction :=
  { to_ := some "A", text := some "hi", template := none, delay := some 7 }

def act3 : List WAction :=
  [make_text_action "A" "m1", make_text_action "B" "m2", make_text_action "C" "m3"]

/-- A send gateway failing exactly on the action at index 1 (of 3). -/
def sendFail1 : Nat → WAction → Except Unit SendRes :=
  fun idx _ =>
    if idx == 1 then .error ()
    else .ok { messages := [some ("wamid-" ++ toString idx)], dry_run := false }

/-- Counterexample to claim C3 as stated: an action at index 0 that itself
specifies `delay: 7` sleeps 7 seconds before its send (the code uses the
action's own delay at any index, the index test only guards the default), so
index 0 is not always "sent with no wait". -/
theorem C3_counterexample :
    (dispatch_actions sendAllOk 0 none [actDelay7] dbEmpty).trace.map
      (fun r => r.waited) = [7]
    ∧ (7 : Int) ≠ 0 := by decide

/-- Claim C3 amended: in every dispatched batch, each attempted action is
preceded by a wait of its own positive delay when it specifies one — at index
0 as well — otherwise by the configured default delay for index > 0 and by no
wait at index 0 (`effWait`); every send starts exactly its wait after the
previous send started; in particular for [A, B with delay 5], A waits 0 and
starts at 0, and B's send starts 5 seconds after A's. -/
theorem C3_amended_delay_pacing (send : Nat → WAction → Except Unit SendRes)
    (dd : Int) (pnid : Option String) (actions : List WAction) (db : DB) :
    (∀ r ∈ (dispatch_actions send dd pnid actions db).trace,
        ∃ a, actions[r.index]? = some a ∧ truthyS a.to_
          ∧ r.waited = effWait dd r.index a)
    ∧ startsChained 0 (dispatch_actions send dd pnid actions db).trace
    ∧ (dispatch_actions sendAllOk 0 none [actA, actB5] dbEmpty).trace
        = [⟨0, 0, 0, true⟩, ⟨1, 5, 5, true⟩] := by
  have hspec := foldl_dispatchStep_spec send dd pnid actions.enum ⟨0, db, [], [], []⟩
  rcases hspec with ⟨_h1, _h2, htr, _h4⟩
  refine ⟨?_, ?_, by decide⟩
  · intro r hr
    simp only [dispatch_actions] at hr
    rw [htr] at hr
    simp only [List.nil_append] at hr
    rcases runSpec_trace_mem send dd pnid actions.enum 0 r hr with ⟨a, hmem, hta, hw⟩
    exact ⟨a, List.mk_mem_enum_iff_getElem?.mp hmem, hta, hw⟩
  · simp only [dispatch_actions]
    rw [htr]
    simp only [List.nil_append]
    exact runSpec_trace_chained send dd pnid actions.enum 0

/-- Witness for C3 (amended) at the concrete two-action batch. -/
theorem C3_amended_delay_pacing_witness :
    startsChained 0 (dispatch_actions sendAllOk 0 none [actA, actB5] dbEmpty).trace :=
  (C3_amended_delay_pacing sendAllOk 0 none [actA, actB5] dbEmpty).2.1

/-- Claim C7: the durable rows are exactly the ghost-recorded successful
inserts; an action whose send fails contributes no row and no publish; every
action with a recipient is attempted regardless of other failures; every
successful send persists and publishes; and in the concrete 3-action batch
whose index-1 send fails, actions 0 and 2 still persist and publish while
action 1 leaves no row. -/
theorem C7_partial_failure (send : Nat → WAction → Except Unit SendRes)
    (dd : Int) (pnid : Option String) (actions : List WAction) (db : DB) :
    ((dispatch_actions send dd pnid actions db).db.messages
        = db.messages ++ ((dispatch_actions send dd pnid actions db).rows).map (·.2))
    ∧ (∀ i a, actions[i]? = some a → send i a = .error () →
        (∀ rp ∈ (dispatch_actions send dd pnid actions db).rows, rp.1 ≠ i)
        ∧ (∀ p ∈ (dispatch_actions send dd pnid actions db).pubs, p.1 ≠ i))
    ∧ (∀ i a, actions[i]? = some a → truthyS a.to_ →
        ∃ r ∈ (dispatch_actions send dd pnid actions db).trace, r.index = i)
    ∧ (∀ i a res, actions[i]? = some a → truthyS a.to_ → send i a = .ok res →
        (∃ rp ∈ (dispatch_actions send dd pnid actions db).rows, rp.1 = i)
        ∧ (∃ p ∈ (dispatch_actions send dd pnid actions db).pubs, p.1 = i))
    ∧ (dispatch_actions sendFail1 0 none act3 dbEmpty).rows.map (·.1) = [0, 2]
    ∧ (dispatch_actions sendFail1 0 none act3 dbEmpty).pubs.map (·.1) = [0, 2]
    ∧ (dispatch_actions sendFail1 0 none act3 dbEmpty).trace.map (·.index) = [0, 1, 2]
    ∧ (dispatch_actions sendFail1 0 none act3 dbEmpty).trace.map (·.sent_ok)
        = [true, false, true]
    ∧ (dispatch_actions sendFail1 0 none act3 dbEmpty).db.messages.map (·.id)
        = [uuidFor 0, uuidFor 2] := by
  have hspec := foldl_dispatchStep_spec send dd pnid actions.enum ⟨0, db, [], [], []⟩
  rcases hspec with ⟨hrows, hpubs, htrace, hmsgs⟩
  simp only [List.nil_append] at hrows hpubs htrace hmsgs
  refine ⟨?_, ?_, ?_, ?_, by decide, by decide, by decide, by decide, by decide⟩
  · simp only [dispatch_actions]
    rw [hmsgs, hrows]
  · intro i a hget herr
    constructor
    · intro rp hrp heq
      simp only [dispatch_actions] at hrp
      rw [hrows] at hrp
      rcases runSpec_rows_mem send dd pnid actions.enum 0 rp hrp with
        ⟨a2, res2, hmem2, _hta2, hok2⟩
      rw [heq] at hmem2 hok2
      have hg2 : actions[i]? = some a2 := List.mk_mem_enum_iff_getElem?.mp hmem2
      rw [hget] at hg2
      have ha : a = a2 := Option.some.inj hg2
      rw [← ha, herr] at hok2
      exact Except.noConfusion hok2
    · intro p hp hpeq
      simp only [dispatch_actions] at hp
      rw [hpubs] at hp
      rcases runSpec_pubs_mem send dd pnid actions.enum 0 p hp with
        ⟨a2, res2, hmem2, _hta2, hok2⟩
      rw [hpeq] at hmem2 hok2
      have hg2 : actions[i]? = some a2 := List.mk_mem_enum_iff_getElem?.mp hmem2
      rw [hget] at hg2
      have ha : a = a2 := Option.some.inj hg2
      rw [← ha, herr] at hok2
      exact Except.noConfusion hok2
  · intro i a hget hta
    simp only [dispatch_actions]
    rw [htrace]
    exact runSpec_attempts_all send dd pnid actions.enum 0 i a
      (List.mk_mem_enum_iff_getElem?.mpr hget) hta
  · intro i a res hget hta hok
    simp only [dispatch_actions]
    rw [hrows, hpubs]
    exact runSpec_ok_recorded send dd pnid actions.enum 0 i a res
      (List.mk_mem_enum_iff_getElem?.mpr hget) hta hok

/-- Witness for C7 at the concrete failing batch: the failed index-1 send has
no ghost row and no publish. -/
theorem C7_partial_failure_witness :
    (∀ rp ∈ (dispatch_actions sendFail1 0 none act3 dbEmpty).rows, rp.1 ≠ 1)
    ∧ (∀ p ∈ (dispatch_actions sendFail1 0 none act3 dbEmpty).pubs, p.1 ≠ 1) :=
  (C7_partial_failure sendFail1 0 none act3 dbEmpty).2.1 1
    (make_text_action "B" "m2") (by decide) rfl

/-- A bounded subscriber queue (`queue.Queue(maxsize=1000)`): maximum size
plus the pending serialized frames, oldest first. -/
structure BQueue where
  maxsize : Nat
  items : List String
deriving DecidableEq

/-- `Queue.full()`: at (or beyond) capacity. -/
def BQueue.isFull (q : BQueue) : Bool :=
  q.maxsize ≤ q.items.length

/-- `q.put_nowait(data)` under the publisher's try/except `queue.Full`:
enqueue unless full, in which case the frame is dropped for this subscriber
only. -/
def BQueue.put_nowait_or_drop (q : BQueue) (data : String) : BQueue :=
  if q.isFull then q else { q with items := q.items ++ [data] }

/-- One JSON string field (`json.dumps` of an optional string). -/
def jsonStr (o : Option String) : String :=
  match o with
  | some v => "\x22" ++ v ++ "\x22"
  | none => "null"

/-- JSON rendering of a template object. -/
def jsonTmpl : Option TemplateObj → String
  | some t =>
      "\x7b\x22name\x22: \x22" ++ t.name ++
        "\x22, \x22language\x22: \x7b\x22code\x22: \x22" ++ t.language_code ++
        "\x22\x7d\x7d"
  | none => "null"

/-- JSON rendering of an optional integer timestamp. -/
def jsonInt : Option Int → String
  | some v => toString v
  | none => "null"

/-- `json.dumps(payload)`: deterministic serialization of an event. -/
def RtEvent.serialize (e : RtEvent) : String :=
  "\x7b" ++ String.intercalate ", "
    ["\x22type\x22: " ++ jsonStr (some e.type),
     "\x22direction\x22: " ++ jsonStr e.direction,
     "\x22msg_type\x22: " ++ jsonStr e.msg_type,
     "\x22text\x22: " ++ jsonStr e.text,
     "\x22template\x22: " ++ jsonTmpl e.template,
     "\x22external_msg_id\x22: " ++ jsonStr e.external_msg_id,
     "\x22status\x22: " ++ jsonStr e.status,
     "\x22timestamp\x22: " ++ jsonStr e.timestamp,
     "\x22created_at\x22: " ++ jsonInt e.created_at] ++ "\x7d"

/-- The SSE frame pushed to subscriber queues:
`f"data: {json.dumps(payload)}\n\n"`. -/
def sse_frame (payload : RtEvent) : String :=
  "data: " ++ payload.serialize ++ "\n\n"

/-- The `_Broadcaster` subscriber registry: channel key to live queues. -/
structure Broadcaster where
  subs : List (String × List BQueue)
deriving DecidableEq

/-- The registration step of `subscribe`: append a fresh bounded queue of
capacity 1000 under the channel (`self._subs.setdefault(channel, []).append(q)`). -/
def Broadcaster.subscribe_register (b : Broadcaster) (channel : String) : Broadcaster :=
  match b.subs.lookup channel with
  | some qs => { subs := dictSet b.subs channel (qs ++ [⟨1000, []⟩]) }
  | none => { subs := b.subs ++ [(channel, [⟨1000, []⟩])] }

/-- `publish`: serialize the payload once, snapshot the queues registered
under the channel, and `put_nowait` the frame into each of them, dropping it
for full queues; every other channel is untouched.  The function is total:
the publisher never blocks and never raises. -/
def Broadcaster.publish (b : Broadcaster) (channel : String) (payload : RtEvent) :
    Broadcaster :=
  { subs := b.subs.map (fun cqs =>
      if cqs.1 == channel
      then (cqs.1, cqs.2.map (fun q => q.put_nowait_or_drop (sse_frame payload)))
      else cqs) }

theorem lookup_map_if_eq {α β : Type} [BEq α] [LawfulBEq α]
    (l : List (α × β)) (k : α) (f : β → β) :
    ((l.map (fun kv => if kv.1 == k then (kv.1, f kv.2) else kv)).lookup k)
      = (l.lookup k).map f := by
  induction l with
  | nil => simp [List.lookup]
  | cons hd tl ih =>
      rcases hd with ⟨k2, v2⟩
      by_cases h : k2 = k
      · subst h
        rw [List.map_cons, if_pos (by simp)]
        simp [List.lookup, ih]
      · rw [List.map_cons, if_neg (by simp [h])]
        have hb2 : (k == k2) = false := beq_eq_false_iff_ne.mpr (Ne.symm h)
        simp [List.lookup, hb2, ih]

theorem lookup_map_if_ne {α β : Type} [BEq α] [LawfulBEq α]
    (l : List (α × β)) (k k2 : α) (f : β → β) (h : k2 ≠ k) :
    ((l.map (fun kv => if kv.1 == k then (kv.1, f kv.2) else kv)).lookup k2)
      = l.lookup k2 := by
  induction l with
  | nil => simp [List.lookup]
  | cons hd tl ih =>
      rcases hd with ⟨k3, v3⟩
      by_cases h3 : k3 = k
      · subst h3
        rw [List.map_cons, if_pos (by simp)]
        have hb : (k2 == k3) = false := beq_eq_false_iff_ne.mpr h
        simp [List.lookup, hb, ih]
      · rw [List.map_cons, if_neg (by simp [h3])]
        by_cases h23 : k2 = k3
        · subst h23
          simp [List.lookup]
        · have hb2 : (k2 == k3) = false := beq_eq_false_iff_ne.mpr h23
          simp [List.lookup, hb2, ih]

/-- Claim C8: `publish` delivers the serialized frame to every queue
registered under exactly the target channel — appending for the non-full
queues, dropping for the full ones, each subscriber independently — and to no
queue registered under any other channel (in particular "T|P" never reaches
"T|Q"); as a total function it never blocks and never raises. -/
theorem C8_publish_isolation (b : Broadcaster) (ch : String) (e : RtEvent)
    (qs : List BQueue) (hqs : b.subs.lookup ch = some qs) :
    (b.publish ch e).subs.lookup ch = some (qs.map (fun q =>
        if q.isFull then q else { q with items := q.items ++ [sse_frame e] }))
    ∧ (∀ chx, chx ≠ ch → (b.publish ch e).subs.lookup chx = b.subs.lookup chx)
    ∧ channel_key "T" "P" ≠ channel_key "T" "Q" := by
  refine ⟨?_, ?_, by decide⟩
  · show ((b.subs.map (fun kv => if kv.1 == ch
        then (kv.1, kv.2.map (fun q => q.put_nowait_or_drop (sse_frame e)))
        else kv)).lookup ch) = _
    rw [lookup_map_if_eq b.subs ch
      (fun v => v.map (fun q => q.put_nowait_or_drop (sse_frame e))), hqs]
    simp [BQueue.put_nowait_or_drop]
  · intro chx hx
    show ((b.subs.map (fun kv => if kv.1 == ch
        then (kv.1, kv.2.map (fun q => q.put_nowait_or_drop (sse_frame e)))
        else kv)).lookup chx) = _
    exact lookup_map_if_ne b.subs ch chx
      (fun v => v.map (fun q => q.put_nowait_or_drop (sse_frame e))) hx

/-- Witness for C8: a registry with one full and one non-full queue on
channel "T|P" and a spectator queue on "T|Q". -/
theorem C8_publish_isolation_witness :
    ((Broadcaster.mk [("T|P", [⟨1, ["old"]⟩, ⟨1000, []⟩]), ("T|Q", [⟨1000, []⟩])]).publish
        "T|P" { type := "status", direction := none, msg_type := none, text := none,
                template := none, external_msg_id := some "w1", status := some "read",
                timestamp := none, created_at := none }).subs.lookup "T|P"
      = some [⟨1, ["old"]⟩,
              ⟨1000, [sse_frame { type := "status", direction := none, msg_type := none,
                                  text := none, template := none,
                                  external_msg_id := some "w1", status := some "read",
                                  timestamp := none, created_at := none }]⟩]
    ∧ ((Broadcaster.mk [("T|P", [⟨1, ["old"]⟩, ⟨1000, []⟩]), ("T|Q", [⟨1000, []⟩])]).publish
        "T|P" { type := "status", direction := none, msg_type := none, text := none,
                template := none, external_msg_id := some "w1", status := some "read",
                timestamp := none, created_at := none }).subs.lookup "T|Q"
      = some [⟨1000, []⟩] := by
  have h := C8_publish_isolation
    (Broadcaster.mk [("T|P", [⟨1, ["old"]⟩, ⟨1000, []⟩]), ("T|Q", [⟨1000, []⟩])])
    "T|P"
    { type := "status", direction := none, msg_type := none, text := none,
      template := none, external_msg_id := some "w1", status := some "read",
      timestamp := none, created_at := none }
    [⟨1, ["old"]⟩, ⟨1000, []⟩] rfl
  refine ⟨?_, ?_⟩
  · rw [h.1]
    rfl
  · rw [h.2.1 "T|Q" (by decide)]
    rfl

/-- Outcomes of the fallible internal phases of one webhook `receive` call
(each may raise, modelled as `Except.error`). -/
structure ReceivePhases where
  normalize_ok : Except String Unit
  persist_inbound_ok : Except String Unit
  automation_ok : Except String Unit
  statuses_ok : Except String Unit
  cleanup_ok : Except String Unit

/-- The try-block of `receive`: normalization, inbound persistence and
automation abort the rest when they raise; the status pass and the session
cleanup each sit in their own inner try/except-pass.  The async dispatch only
spawns a thread and raises nothing here. -/
def receive_try (ph : ReceivePhases) : Except String Unit := do
  let _ ← ph.normalize_ok
  let _ ← ph.persist_inbound_ok
  let _ ← ph.automation_ok
  let _ : Unit :=
    match ph.statuses_ok with
    | .ok _ => ()
    | .error _ => ()
  let _ : Unit :=
    match ph.cleanup_ok with
    | .ok _ => ()
    | .error _ => ()
  pure ()

/-- `receive`: the outer try/except returns `("", 200)` on success and
`("", 200)` from the handler-error branch as well — the acknowledgment is
unconditional. -/
def receive (ph : ReceivePhases) : String × Nat :=
  match receive_try ph with
  | .ok _ => ("", 200)
  | .error _ => ("", 200)

/-- Claim C9: whatever the internal phases do — any of normalization,
persistence, automation, status handling or cleanup raising — the webhook
POST handler acknowledges with HTTP 200 and an empty body. -/
theorem C9_always_200 (ph : ReceivePhases) :
    (receive ph).2 = 200 ∧ (receive ph).1 = "" := by
  unfold receive
  cases receive_try ph with
  | ok v => exact ⟨rfl, rfl⟩
  | error e => exact ⟨rfl, rfl⟩


/-- Python `str.lower()` (ASCII case map; the texts in play are unaffected
beyond ASCII). -/
def pyLower (s : String) : String :=
  ⟨s.toList.map Char.toLower⟩

/-- Python `str.strip()`: drop whitespace from both ends. -/
def pyStrip (s : String) : String :=
  ⟨((s.toList.dropWhile Char.isWhitespace).reverse.dropWhile
      Char.isWhitespace).reverse⟩

/-- A normalized inbound event, restricted to the fields the automation
reads (`e.get("from","")` missing is the empty string). -/
structure Event where
  type : String
  from_ : String
  text : Option String
deriving DecidableEq

/-- Word characters for Python's Unicode `\w` on the alphabet in play:
ASCII alphanumerics, underscore, and non-ASCII (accented) letters. -/
def isWordChar (c : Char) : Bool :=
  c.isAlphanum || c == '_' || decide (128 ≤ c.toNat)

/-- A word boundary to the right: end of input or a non-word character. -/
def boundaryAt : List Char → Bool
  | [] => true
  | c :: _ => !(isWordChar c)

/-- Scan for `\b<w>\b` starting at every position, tracking whether the
previous character was a word character (word-boundary on the left). -/
def hasWordAux (w : List Char) : List Char → Bool → Bool
  | [], _ => false
  | c :: rest, prevIsWord =>
      (!prevIsWord && w.isPrefixOf (c :: rest)
        && boundaryAt ((c :: rest).drop w.length))
      || hasWordAux w rest (isWordChar c)

/-- `re.search(r"\b<w>\b", s)` for a word `w` made of word characters. -/
def hasWord (w s : String) : Bool :=
  hasWordAux w.toList s.toList false

/-- `re.search(r"\bhor(a|á)rio\b|\bhorario\b", txt)`. -/
def matchesHorario (txt : String) : Bool :=
  hasWord "horario" txt || hasWord "horário" txt

/-- `re.search(r"\bagend(ar|o)\b", txt)`. -/
def matchesAgendar (txt : String) : Bool :=
  hasWord "agendar" txt || hasWord "agendo" txt

/-- `re.match(r"^(a1|a2|…)\b", txt)`: some alternative is a prefix of `txt`
followed by a word boundary (the regex engine backtracks through the
alternation). -/
def matchStartAlts (alts : List String) (txt : String) : Bool :=
  alts.any (fun a =>
    a.toList.isPrefixOf txt.toList
      && boundaryAt (txt.toList.drop a.toList.length))

/-- `YES_RE.match(txt)` (`^(s|sim|ok|isso|pode|claro)\b`, on lowered text). -/
def YES_RE_match (txt : String) : Bool :=
  matchStartAlts ["s", "sim", "ok", "isso", "pode", "claro"] txt

/-- `NO_RE.match(txt)` (`^(n|nao|não|negativo)\b`, on lowered text). -/
def NO_RE_match (txt : String) : Bool :=
  matchStartAlts ["n", "nao", "não", "negativo"] txt

/-- The letter class `[A-Za-zÀ-ÖØ-öø-ÿ]` of `_looks_like_name`. -/
def isLatinLetter (c : Char) : Bool :=
  (decide ('A' ≤ c) && decide (c ≤ 'Z'))
    || (decide ('a' ≤ c) && decide (c ≤ 'z'))
    || (decide (0xC0 ≤ c.toNat) && decide (c.toNat ≤ 0xD6))
    || (decide (0xD8 ≤ c.toNat) && decide (c.toNat ≤ 0xF6))
    || (decide (0xF8 ≤ c.toNat) && decide (c.toNat ≤ 0xFF))

/-- `_looks_like_name`: after strip, contains a letter and is at least two
characters long. -/
def looks_like_name (s : String) : Bool :=
  let t := pyStrip s
  t.toList.any isLatinLetter && decide (2 ≤ t.length)

/-- `str.title()` restricted to the letter alphabet above: a letter after a
non-letter is uppercased, other letters lowercased (ASCII case maps). -/
def pyTitleAux : List Char → Bool → List Char
  | [], _ => []
  | c :: rest, prevAlpha =>
      (if isLatinLetter c then (if prevAlpha then c.toLower else c.toUpper) else c)
        :: pyTitleAux rest (isLatinLetter c)

def pyTitle (s : String) : String :=
  ⟨pyTitleAux s.toList false⟩

/-- `re.fullmatch(r"template\s+hello", txt)`: "template", then at least one
whitespace character, then "hello". -/
def isTemplateHello (txt : String) : Bool :=
  let cs := txt.toList
  let pre := "template".toList
  let suf := "hello".toList
  pre.isPrefixOf cs &&
    (let rest := cs.drop pre.length
     let midlen := rest.length - suf.length
     decide (suf.length ≤ rest.length) && rest.drop midlen == suf
       && decide (1 ≤ midlen) && (rest.take midlen).all (fun c => c.isWhitespace))

/-- Truthiness of an optional context value. -/
def pyValTruthy : Option PyVal → Bool
  | some (.str s) => s != ""
  | some (.bool b) => b
  | none => false

/-- Python `str(...)` / f-string rendering of an optional context value. -/
def pyValStr : Option PyVal → String
  | some (.str s) => s
  | some (.bool true) => "True"
  | some (.bool false) => "False"
  | none => "None"

/-- `_menu_text(nome)`: menu body, name-prefixed when a truthy name is
given. -/
def menu_text (nome : Option PyVal) : String :=
  (if pyValTruthy nome then pyValStr nome ++ ", segue o menu:\n"
   else "Menu Cliente X:\n")
    ++ "1) Orçamento\n" ++ "2) Suporte\n" ++ "3) Falar com humano"

/-- The two `CLIENTE_X_*` environment texts with their defaults applied
(`_greeting()` / `_working_hours()`). -/
structure EnvCfg where
  greeting : String
  working_hours : String
deriving DecidableEq

def defaultEnv : EnvCfg :=
  { greeting := "Olá! Sou o assistente da Cliente X. Como posso ajudar?"
    working_hours := "Atendemos de seg a sex, 9h às 18h." }

/-- `_find_tenant_for_phone`: the tenant of the first session in the
snapshot whose key's phone component matches (keys are `(tenant, phone)`
tuples in this manager). -/
def find_tenant_for_phone (sm : SessionManager) (phone : String) : Option String :=
  (sm.snapshot.find? (fun kv => kv.1.2 == phone)).map (fun kv => kv.1.1)

/-- `_set_state` helper: the tenant+phone signature applies; a missing
manager or tenant leaves everything unchanged (the legacy phone-only
fallback raises and is swallowed). -/
def respond_set_state (sm : Option SessionManager) (tenant : Option String)
    (phone state : String) (now : Int) : Option SessionManager :=
  match sm, tenant with
  | some m, some t => some (m.set_state t phone state now)
  | _, _ => sm

/-- `_set_ctx` helper, same signature handling as `respond_set_state`. -/
def respond_set_ctx (sm : Option SessionManager) (tenant : Option String)
    (phone : String) (updates : List (String × PyVal)) (now : Int) :
    Option SessionManager :=
  match sm, tenant with
  | some m, some t => some (m.set_context t phone updates now)
  | _, _ => sm

/-- One iteration of `cliente_x.respond`'s event loop: the guard chain in
source order, threading the session manager and appending this event's
actions. -/
def respondStep (env : EnvCfg) (now : Int)
    (acc : List WAction × Option SessionManager) (e : Event) :
    List WAction × Option SessionManager :=
  if e.type != "text" then acc
  else
    let dest := e.from_
    let txt := pyStrip (e.text.getD "")
    if dest == "" then acc
    else
      let txt_norm := pyLower txt
      let sm := acc.2
      let tenant :=
        match sm with
        | some m => find_tenant_for_phone m dest
        | none => none
      let sess :=
        match sm, tenant with
        | some m, some t => m.get t dest
        | _, _ => none
      let state := pyOr (sess.map (fun s => s.state)) "idle"
      let ctx :=
        match sess with
        | some s => s.context
        | none => []
      let nome := ctx.lookup "nome"
      let profile_name := ctx.lookup "profile_name"
      if ["oi", "olá", "ola", "bom dia", "boa tarde", "boa noite"].contains txt_norm then
        (acc.1 ++ [make_text_action dest env.greeting], sm)
      else if matchesHorario txt_norm then
        (acc.1 ++ [make_text_action dest env.working_hours], sm)
      else if !(pyValTruthy nome) && pyValTruthy profile_name
          && !(["awaiting_name", "awaiting_name_confirm", "awaiting_menu_selection",
                "awaiting_support_desc"].contains state) then
        (acc.1 ++ [make_text_action dest
            ("Posso te chamar de " ++ pyValStr profile_name
              ++ "? Se preferir outro nome, me diga 🙂")],
         respond_set_state sm tenant dest "awaiting_name_confirm" now)
      else if txt_norm == "menu" then
        (acc.1 ++ [make_text_action dest (menu_text nome)],
         respond_set_state sm tenant dest "awaiting_menu_selection" now)
      else if isTemplateHello txt_norm then
        (acc.1 ++ [make_template_action dest ⟨"hello_world", "en_US"⟩], sm)
      else if state == "awaiting_menu_selection"
          && ["1", "2", "3"].contains txt_norm then
        let sm1 := respond_set_ctx sm tenant dest [("menu_selected", .str txt_norm)] now
        if txt_norm == "1" then
          (acc.1 ++ [make_text_action dest "Legal! Para começar, qual é o seu nome?"],
           respond_set_state sm1 tenant dest "awaiting_name" now)
        else if txt_norm == "2" then
          (acc.1 ++ [make_text_action dest
              "Certo! Descreva brevemente o problema e mande anexo se quiser."],
           respond_set_state sm1 tenant dest "awaiting_support_desc" now)
        else
          (acc.1 ++ [make_text_action dest
              "Ok! Vou te conectar com uma pessoa da equipe. Aguarde um instante."],
           respond_set_ctx (respond_set_state sm1 tenant dest "escalated" now) tenant dest
             [("handoff_requested", .bool true)] now)
      else if state == "awaiting_name_confirm" then
        if YES_RE_match txt_norm && pyValTruthy profile_name then
          (acc.1 ++ [make_text_action dest ("Perfeito, " ++ pyValStr profile_name ++ "!"),
                     make_text_action dest (menu_text profile_name)],
           respond_set_state
             (respond_set_ctx sm tenant dest [("nome", profile_name.getD (.str ""))] now)
             tenant dest "idle" now)
        else if !(NO_RE_match txt_norm) && looks_like_name txt then
          (acc.1 ++ [make_text_action dest
              ("Ótimo! Prazer, " ++ pyTitle (pyStrip txt) ++ "."),
             make_text_action dest (menu_text (some (.str (pyTitle (pyStrip txt)))))],
           respond_set_state
             (respond_set_ctx sm tenant dest [("nome", .str (pyTitle (pyStrip txt)))] now)
             tenant dest "idle" now)
        else
          (acc.1 ++ [make_text_action dest
              ("Perdão, não entendi. Posso te chamar pelo nome que aparece no WhatsApp, "
                ++ pyValStr profile_name
                ++ "? Se preferir, me diga como devo chamar você.")], sm)
      else if state == "awaiting_name" then
        (acc.1 ++ [make_text_action dest
            ("Prazer, " ++ pyTitle (pyStrip txt) ++ "! Posso te ajudar com um orçamento."),
           make_text_action dest (menu_text (some (.str (pyTitle (pyStrip txt)))))],
         respond_set_state
           (respond_set_ctx sm tenant dest [("nome", .str (pyTitle (pyStrip txt)))] now)
           tenant dest "idle" now)
      else if state == "awaiting_support_desc" then
        (acc.1 ++ [make_text_action dest
            "Obrigado! Registrei sua descrição. Em breve retornaremos.",
           make_text_action dest (menu_text nome)],
         respond_set_state
           (respond_set_ctx sm tenant dest [("last_support_desc", .str txt)] now)
           tenant dest "idle" now)
      else if matchesAgendar txt_norm then
        (acc.1 ++ [make_text_action dest
            "Aqui está o link para sugerir um horário: https://calendar.google.com/",
           make_text_action dest "Quando concluir, me avise aqui que eu confirmo."], sm)
      else
        (acc.1 ++ [make_text_action dest
            "Recebi sua mensagem! Já te respondo. Digite \x27menu\x27 para ver opções."],
         sm)

/-- `cliente_x.respond`: fold the per-event step over the normalized events,
starting from the ambient session manager (the settings'
`SESSION_MANAGER`). -/
def respond (env : EnvCfg) (sm : Option SessionManager) (now : Int)
    (events : List Event) : List WAction × Option SessionManager :=
  events.foldl (respondStep env now) ([], sm)

theorem set_state_get (sm : SessionManager) (tenant phone state : String)
    (now : Int) (s : Session) (hs : sm.get tenant phone = some s) :
    (sm.set_state tenant phone state now).get tenant phone
      = some { s with state := state, expires_at := sm.expForState state now,
                      last_activity := now } := by
  simp only [SessionManager.get] at hs
  simp only [SessionManager.set_state, hs, SessionManager.get]
  exact lookup_dictSet_self sm.sessions (tenant, phone) _

theorem set_context_get (sm : SessionManager) (tenant phone : String)
    (updates : List (String × PyVal)) (now : Int) (s : Session)
    (hs : sm.get tenant phone = some s) :
    (sm.set_context tenant phone updates now).get tenant phone
      = some { s with
          context := updates.foldl (fun c kv => dictSet c kv.1 kv.2) s.context,
          last_activity := now } := by
  simp only [SessionManager.get] at hs
  simp only [SessionManager.set_context, hs, SessionManager.get]
  exact lookup_dictSet_self sm.sessions (tenant, phone) _

theorem set_state_ttls (sm : SessionManager) (tenant phone state : String)
    (now : Int) :
    (sm.set_state tenant phone state now).ttls = sm.ttls := by
  unfold SessionManager.set_state
  cases sm.sessions.lookup (tenant, phone) <;> rfl

theorem set_context_ttls (sm : SessionManager) (tenant phone : String)
    (updates : List (String × PyVal)) (now : Int) :
    (sm.set_context tenant phone updates now).ttls = sm.ttls := by
  unfold SessionManager.set_context
  cases sm.sessions.lookup (tenant, phone) <;> rfl

theorem find?_key_dictSet {α β γ : Type} [BEq α] [LawfulBEq α]
    (l : List (α × β)) (k : α) (v : β) (pred : α → Bool) (g : α → γ)
    (hk : (l.lookup k).isSome) :
    ((dictSet l k v).find? (fun kv => pred kv.1)).map (fun kv => g kv.1)
      = (l.find? (fun kv => pred kv.1)).map (fun kv => g kv.1) := by
  induction l with
  | nil => simp [List.lookup] at hk
  | cons hd tl ih =>
      rcases hd with ⟨k2, v2⟩
      by_cases h : k2 = k
      · subst h
        rw [dictSet, if_pos (by simp)]
        by_cases hpred : pred k2
        · simp [List.find?_cons_of_pos, hpred]
        · simp [List.find?_cons_of_neg, hpred]
      · rw [dictSet, if_neg (by simp [h])]
        have hk2 : (tl.lookup k).isSome := by
          have hb : (k == k2) = false := beq_eq_false_iff_ne.mpr (Ne.symm h)
          simpa [List.lookup, hb] using hk
        by_cases hpred : pred k2
        · simp [List.find?_cons_of_pos, hpred]
        · simp [List.find?_cons_of_neg, hpred, ih hk2]

theorem find_tenant_set_state (sm : SessionManager) (t p state : String)
    (now : Int) (sess : Session) (hget : sm.get t p = some sess)
    (phone : String) :
    find_tenant_for_phone (sm.set_state t p state now) phone
      = find_tenant_for_phone sm phone := by
  simp only [SessionManager.get] at hget
  unfold find_tenant_for_phone SessionManager.snapshot
  simp only [SessionManager.set_state, hget]
  exact find?_key_dictSet sm.sessions (t, p) _ (fun k => k.2 == phone)
    (fun k => k.1) (by rw [hget]; rfl)

theorem find_tenant_set_context (sm : SessionManager) (t p : String)
    (updates : List (String × PyVal)) (now : Int) (sess : Session)
    (hget : sm.get t p = some sess) (phone : String) :
    find_tenant_for_phone (sm.set_context t p updates now) phone
      = find_tenant_for_phone sm phone := by
  simp only [SessionManager.get] at hget
  unfold find_tenant_for_phone SessionManager.snapshot
  simp only [SessionManager.set_context, hget]
  exact find?_key_dictSet sm.sessions (t, p) _ (fun k => k.2 == phone)
    (fun k => k.1) (by rw [hget]; rfl)

theorem respond_menu_eval (env : EnvCfg) (smv : SessionManager) (t p : String)
    (sessv : Session) (now : Int)
    (hfind : find_tenant_for_phone smv p = some t)
    (hget : smv.get t p = some sessv)
    (hstate : sessv.state = "idle")
    (hp : p ≠ "")
    (hconf : pyValTruthy (sessv.context.lookup "nome") = true
           ∨ pyValTruthy (sessv.context.lookup "profile_name") = false) :
    respond env (some smv) now [{ type := "text", from_ := p, text := some "menu" }]
      = ([make_text_action p (menu_text (sessv.context.lookup "nome"))],
         some (smv.set_state t p "awaiting_menu_selection" now)) := by
  have hbp : (p == "") = false := beq_eq_false_iff_ne.mpr hp
  have hcond : (!(pyValTruthy (sessv.context.lookup "nome"))
      && pyValTruthy (sessv.context.lookup "profile_name")
      && !(["awaiting_name", "awaiting_name_confirm", "awaiting_menu_selection",
            "awaiting_support_desc"].contains ("idle" : String))) = false := by
    rcases hconf with h | h
    · simp [h]
    · simp [h]
  have htrim : pyStrip "menu" = "menu" := by decide
  have hlower : pyLower "menu" = "menu" := by decide
  have hgr : (["oi", "olá", "ola", "bom dia", "boa tarde", "boa noite"].contains
      ("menu" : String)) = false := by decide
  have hhor : matchesHorario "menu" = false := by decide
  unfold respond
  rw [List.foldl_cons, List.foldl_nil]
  unfold respondStep
  simp only [Option.getD_some, htrim, hlower, hbp, hfind, hget, hstate,
    Option.map_some, bne_self_eq_false, Bool.false_eq_true, if_false,
    beq_self_eq_true, if_true, hgr, hhor, hcond]
  simp [respond_set_state, pyOr, hcond, hstate]
  intro h1 h2
  rcases hconf with h | h
  · simp [h1] at h
  · simp [h2] at h

theorem respond_one_eval (env : EnvCfg) (smv : SessionManager) (t p : String)
    (sessv : Session) (now : Int)
    (hfind : find_tenant_for_phone smv p = some t)
    (hget : smv.get t p = some sessv)
    (hstate : sessv.state = "awaiting_menu_selection")
    (hp : p ≠ "") :
    respond env (some smv) now [{ type := "text", from_ := p, text := some "1" }]
      = ([make_text_action p "Legal! Para começar, qual é o seu nome?"],
         some ((smv.set_context t p [("menu_selected", .str "1")] now).set_state
            t p "awaiting_name" now)) := by
  have hbp : (p == "") = false := beq_eq_false_iff_ne.mpr hp
  have htrim : pyStrip "1" = "1" := by decide
  have hlower : pyLower "1" = "1" := by decide
  have hgr : (["oi", "olá", "ola", "bom dia", "boa tarde", "boa noite"].contains
      ("1" : String)) = false := by decide
  have hhor : matchesHorario "1" = false := by decide
  have hth : isTemplateHello "1" = false := by decide
  have hmenu : (("1" : String) == "menu") = false := by decide
  have hpo : pyOr (some ("awaiting_menu_selection" : String)) "idle"
      = "awaiting_menu_selection" := by decide
  have hexc : (["awaiting_name", "awaiting_name_confirm", "awaiting_menu_selection",
      "awaiting_support_desc"].contains ("awaiting_menu_selection" : String))
      = true := by decide
  have h123 : (["1", "2", "3"].contains ("1" : String)) = true := by decide
  unfold respond
  rw [List.foldl_cons, List.foldl_nil]
  unfold respondStep
  simp only [Option.getD_some, htrim, hlower, hbp, hfind, hget, hstate,
    Option.map_some, bne_self_eq_false, Bool.false_eq_true, if_false,
    beq_self_eq_true, if_true, hgr, hhor, hth, hmenu, hpo, hexc, h123,
    Bool.not_true, Bool.and_false]
  simp [respond_set_state, respond_set_ctx, hstate, hexc, h123, hmenu, hth,
    hhor, hgr, pyOr]

/-- Claim C4 amended: for every idle session whose context does not trigger
the profile-name confirmation offer (a truthy `nome` or no truthy
`profile_name`), an inbound "menu" text returns the menu action and moves the
session to awaiting_menu_selection with `expires_at` exactly 300 seconds
after the transition time; a subsequent "1" from the same sender returns the
name prompt and moves the session to awaiting_name. -/
theorem C4_menu_flow (smv : SessionManager) (t p : String) (sessv : Session)
    (now now2 : Int)
    (hT : smv.ttls = DEFAULT_TTLS)
    (hfind : find_tenant_for_phone smv p = some t)
    (hget : smv.get t p = some sessv)
    (hstate : sessv.state = "idle")
    (hp : p ≠ "")
    (hconf : pyValTruthy (sessv.context.lookup "nome") = true
           ∨ pyValTruthy (sessv.context.lookup "profile_name") = false) :
    respond defaultEnv (some smv) now [{ type := "text", from_ := p, text := some "menu" }]
      = ([make_text_action p (menu_text (sessv.context.lookup "nome"))],
         some (smv.set_state t p "awaiting_menu_selection" now))
    ∧ (smv.set_state t p "awaiting_menu_selection" now).get t p
        = some { sessv with state := "awaiting_menu_selection",
                            expires_at := now + 300, last_activity := now }
    ∧ respond defaultEnv (some (smv.set_state t p "awaiting_menu_selection" now)) now2
        [{ type := "text", from_ := p, text := some "1" }]
      = ([make_text_action p "Legal! Para começar, qual é o seu nome?"],
         some (((smv.set_state t p "awaiting_menu_selection" now).set_context
             t p [("menu_selected", .str "1")] now2).set_state t p "awaiting_name" now2))
    ∧ (((smv.set_state t p "awaiting_menu_selection" now).set_context
          t p [("menu_selected", .str "1")] now2).set_state t p "awaiting_name" now2).get t p
        = some { sessv with
            state := "awaiting_name",
            context := dictSet sessv.context "menu_selected" (.str "1"),
            expires_at := now2 + 1200, last_activity := now2 } := by
  have hexp1 : smv.expForState "awaiting_menu_selection" now = now + 300 := by
    rw [expForState_default smv "awaiting_menu_selection" now hT,
      show (DEFAULT_TTLS.lookup "awaiting_menu_selection").getD 3600 = 300 from by decide]
  have h2 : (smv.set_state t p "awaiting_menu_selection" now).get t p
      = some { sessv with state := "awaiting_menu_selection",
                          expires_at := now + 300, last_activity := now } := by
    rw [set_state_get smv t p "awaiting_menu_selection" now sessv hget, hexp1]
  have hfind1 : find_tenant_for_phone (smv.set_state t p "awaiting_menu_selection" now) p
      = some t := by
    rw [find_tenant_set_state smv t p "awaiting_menu_selection" now sessv hget p]
    exact hfind
  have hT1 : (smv.set_state t p "awaiting_menu_selection" now).ttls = DEFAULT_TTLS := by
    rw [set_state_ttls]
    exact hT
  have hctx : ((smv.set_state t p "awaiting_menu_selection" now).set_context
      t p [("menu_selected", .str "1")] now2).get t p
      = some { sessv with
          state := "awaiting_menu_selection",
          context := dictSet sessv.context "menu_selected" (.str "1"),
          expires_at := now + 300, last_activity := now2 } := by
    rw [set_context_get (smv.set_state t p "awaiting_menu_selection" now) t p
      [("menu_selected", .str "1")] now2 _ h2]
    simp
  have hT2 : ((smv.set_state t p "awaiting_menu_selection" now).set_context
      t p [("menu_selected", .str "1")] now2).ttls = DEFAULT_TTLS := by
    rw [set_context_ttls]
    exact hT1
  have hexp2 : ((smv.set_state t p "awaiting_menu_selection" now).set_context
      t p [("menu_selected", .str "1")] now2).expForState "awaiting_name" now2
      = now2 + 1200 := by
    rw [expForState_default _ "awaiting_name" now2 hT2,
      show (DEFAULT_TTLS.lookup "awaiting_name").getD 3600 = 1200 from by decide]
  refine ⟨respond_menu_eval defaultEnv smv t p sessv now hfind hget hstate hp hconf,
    h2, respond_one_eval defaultEnv _ t p _ now2 ?_ h2 rfl hp, ?_⟩
  · rw [find_tenant_set_state smv t p "awaiting_menu_selection" now sessv hget p]
    exact hfind
  · rw [set_state_get _ t p "awaiting_name" now2 _ hctx, hexp2]

/-- Concrete idle session whose context carries a profile_name and no nome
(the webhook stores `profile_name` from the contact metadata). -/
def sessProfiled : Session :=
  { session_id := "sid2", tenant := "t", phone := "p", state := "idle",
    context := [("profile_name", .str "Ana")], last_activity := 0,
    expires_at := 3600, attempts := 0, locked_by_operator := none }

def smProfiled : SessionManager :=
  { sessions := [(("t", "p"), sessProfiled)], ttls := DEFAULT_TTLS }

/-- Counterexample to claim C4 as stated: an idle session whose context holds
a profile_name and no nome is intercepted by the name-confirmation branch —
"menu" yields the "Posso te chamar de …" prompt and the session moves to
awaiting_name_confirm, not awaiting_menu_selection. -/
theorem C4_counterexample :
    ((respond defaultEnv (some smProfiled) 100
        [{ type := "text", from_ := "p", text := some "menu" }]).2.bind
      (fun m => (m.get "t" "p").map (fun s => s.state)))
      ≠ some "awaiting_menu_selection"
    ∧ ((respond defaultEnv (some smProfiled) 100
        [{ type := "text", from_ := "p", text := some "menu" }]).2.bind
      (fun m => (m.get "t" "p").map (fun s => s.state)))
      = some "awaiting_name_confirm"
    ∧ (respond defaultEnv (some smProfiled) 100
        [{ type := "text", from_ := "p", text := some "menu" }]).1
      = [make_text_action "p"
          "Posso te chamar de Ana? Se preferir outro nome, me diga 🙂"] := by decide

/-- Witness for C4 (amended) at a concrete single-session manager. -/
theorem C4_menu_flow_witness :
    (smW.set_state "t" "p" "awaiting_menu_selection" 100).get "t" "p"
      = some { sessW with state := "awaiting_menu_selection",
                          expires_at := 100 + 300, last_activity := 100 } :=
  (C4_menu_flow smW "t" "p" sessW 100 200 rfl (by decide) rfl rfl
    (by decide) (Or.inr (by decide))).2.1

end WaRelay
